import Mathlib

/-!
Verification of the ps.rs PlayStation emulator core.

This file is a shallow embedding, in Lean 4, of the parts of the emulator
that the specification talks about:

* the instruction-word accessor views (`src/utils/cpustructs.rs`),
* the instruction decoder (`src/utils/decode.rs`),
* the Cop0 exception vectoring (`src/devices/cop0.rs`),
* the CPU execution engine and its per-mnemonic handlers
  (`src/devices/cpu/cpu.rs`),
* the address mapper (`src/utils/memorymap.rs`).

Machine integers are modelled as `Nat` (for the Rust unsigned types) and
`Int` (for values reinterpreted as `i32`), with explicit `% 2^32` at every
point where the Rust code wraps.  Rust `panic!`/`todo!` paths, and handler
dispatch for unimplemented instructions, are modelled by `Option` (`none`
means the emulator aborts).  Unchecked `-` on `u32` is modelled with
wrap-around (release-profile semantics).

The bus (trait `BusDevice`) is an external collaborator of the core: the
specification states that peripherals may be stubbed by anything satisfying
the bus contract.  It is instantiated here by a byte-addressed store plus a
write log, so that frame properties ("no bus write happens") are directly
observable.
-/

set_option maxRecDepth 10000

namespace PsRs

/-! ### Generic bit-manipulation bridging lemmas

These connect `&&&`/`|||`/`^^^`/`<<<`/`>>>` on `Nat` to the `%`-and-`/`
arithmetic that `omega` understands. -/

theorem and_mask_mod (x n : Nat) : x &&& (2 ^ n - 1) = x % 2 ^ n :=
  Nat.and_pow_two_sub_one_eq_mod x n

theorem xor_shr (x c n : Nat) : (x ^^^ c) >>> n = (x >>> n) ^^^ (c >>> n) := by
  apply Nat.eq_of_testBit_eq
  intro i
  simp [Nat.testBit_shiftRight, Nat.testBit_xor]

theorem xor_and_eq_of_and_eq_zero (x c m : Nat) (h : c &&& m = 0) :
    (x ^^^ c) &&& m = x &&& m := by
  apply Nat.eq_of_testBit_eq
  intro i
  have hb : (c &&& m).testBit i = false := by rw [h]; simp
  rw [Nat.testBit_and] at hb
  simp only [Nat.testBit_and, Nat.testBit_xor]
  cases hx : x.testBit i <;> cases hc : c.testBit i <;> cases hm : m.testBit i <;> simp_all

theorem or_eq_add_shl (h l n : Nat) (hl : l < 2 ^ n) : (h <<< n) ||| l = h <<< n + l := by
  rw [Nat.shiftLeft_eq, Nat.mul_comm]
  exact (Nat.mul_add_lt_is_or hl h).symm

theorem and_shl_mask (x m n : Nat) : x &&& (m <<< n) = ((x >>> n) &&& m) <<< n := by
  apply Nat.eq_of_testBit_eq
  intro i
  simp only [Nat.testBit_and, Nat.testBit_shiftLeft, Nat.testBit_shiftRight]
  by_cases hni : n ≤ i
  · simp [hni, Nat.add_sub_cancel' hni, Bool.and_comm, Bool.and_left_comm]
  · simp [hni]

/-! ### u32 helpers

`wrap32` models `u32` wrap-around, `wsub32` models `u32` subtraction
(wrapping), `sign_extend`/`zero_extend` model the `sign_extend!` and
`zero_extend!` macros of `src/devices/cpu/cpu.rs` (cast to `i16`/`u16`,
then widen to `u32`), `toI32`/`toU32` model `as i32`/`as u32` casts. -/

def wrap32 (x : Nat) : Nat := x % 4294967296

def wsub32 (a b : Nat) : Nat := (a + (4294967296 - b % 4294967296)) % 4294967296

def sign_extend (x : Nat) : Nat :=
  if x % 65536 < 32768 then x % 65536 else x % 65536 + 0xFFFF0000

def zero_extend (x : Nat) : Nat := x % 65536

def toI32 (x : Nat) : Int :=
  if x % 4294967296 < 2147483648 then ((x % 4294967296 : Nat) : Int)
  else ((x % 4294967296 : Nat) : Int) - 4294967296

def toU32 (z : Int) : Nat := (z % 4294967296).toNat

theorem toI32_toU32 (z : Int) (h1 : -2147483648 ≤ z) (h2 : z < 2147483648) :
    toI32 (toU32 z) = z := by
  unfold toI32 toU32
  split <;> omega

/-! ### Instruction words (`src/utils/cpustructs.rs`)

A 32-bit opaque integer with accessor views.  The masks and shifts are
taken verbatim from the `INSTR_PART_*` constants and the `impl Instruction`
block (lines 273-326). -/

structure Instruction where
  word : Nat
deriving DecidableEq, Repr

def Instruction.op (i : Instruction) : Nat := (i.word &&& 0xFC000000) >>> 26

def Instruction.rs (i : Instruction) : Nat := (i.word &&& 0x03E00000) >>> 21

def Instruction.rt (i : Instruction) : Nat := (i.word &&& 0x001F0000) >>> 16

def Instruction.rd (i : Instruction) : Nat := (i.word &&& 0x0000F800) >>> 11

def Instruction.shamt (i : Instruction) : Nat := (i.word &&& 0x000007E0) >>> 5

def Instruction.funct (i : Instruction) : Nat := i.word &&& 0x0000001F

def Instruction.immediate (i : Instruction) : Nat := i.word &&& 0x0000FFFF

def Instruction.target (i : Instruction) : Nat := i.word &&& 0x07FFFFFF

/-! ### Mnemonics

The closed enumeration of decoder outputs.  The Rust sentinel variant
`__ILLEGAL__` is spelled `ILLEGAL` here. -/

inductive Mnemonic where
  | ADD | ADDI | ADDIU | ADDU | AND | ANDI
  | BEQ | BGEZ | BGEZAL | BGTZ | BLEZ | BLTZ | BLTZAL | BNE | BREAK
  | CFCz | COPz | CTCz | DIV | DIVU
  | J | JAL | JALR | JR
  | LB | LBU | LH | LHU | LUI | LW | LWCz | LWL | LWR
  | MFCz | MFHI | MFLO | MTCz | MTHI | MTLO | MULT | MULTU
  | NOR | OR | ORI
  | SB | SH | SLL | SLLV | SLT | SLTI | SLTIU | SLTU
  | SRA | SRAV | SRL | SRLV | SUB | SUBU | SW | SWCz | SWL | SWR | SYSCALL
  | XOR | XORI
  | ILLEGAL
deriving DecidableEq, Repr

/-! ### The decoder (`src/utils/decode.rs`)

`panic!` arms are modelled as `none`.  The `funct`/`rt`/`rs` accessors used
by the sub-decoders are the `Instruction` views above. -/

def decode_register_instruction (instr : Instruction) : Option Mnemonic :=
  if instr.funct = 0b100000 then some Mnemonic.ADD
  else if instr.funct = 0b100001 then some Mnemonic.ADDU
  else if instr.funct = 0b100100 then some Mnemonic.AND
  else if instr.funct = 0b001101 then some Mnemonic.BREAK
  else if instr.funct = 0b011010 then some Mnemonic.DIV
  else if instr.funct = 0b011011 then some Mnemonic.DIVU
  else if instr.funct = 0b001001 then some Mnemonic.JALR
  else if instr.funct = 0b001000 then some Mnemonic.JR
  else if instr.funct = 0b010000 then some Mnemonic.MFHI
  else if instr.funct = 0b010010 then some Mnemonic.MFLO
  else if instr.funct = 0b010001 then some Mnemonic.MTHI
  else if instr.funct = 0b010011 then some Mnemonic.MTLO
  else if instr.funct = 0b011000 then some Mnemonic.MULT
  else if instr.funct = 0b011001 then some Mnemonic.MULTU
  else if instr.funct = 0b100111 then some Mnemonic.NOR
  else if instr.funct = 0b100101 then some Mnemonic.OR
  else if instr.funct = 0b000000 then some Mnemonic.SLL
  else if instr.funct = 0b000100 then some Mnemonic.SLLV
  else if instr.funct = 0b101010 then some Mnemonic.SLT
  else if instr.funct = 0b101011 then some Mnemonic.SLTU
  else if instr.funct = 0b000011 then some Mnemonic.SRA
  else if instr.funct = 0b000111 then some Mnemonic.SRAV
  else if instr.funct = 0b000010 then some Mnemonic.SRL
  else if instr.funct = 0b000110 then some Mnemonic.SRLV
  else if instr.funct = 0b100010 then some Mnemonic.SUB
  else if instr.funct = 0b100011 then some Mnemonic.SUBU
  else if instr.funct = 0b001100 then some Mnemonic.SYSCALL
  else if instr.funct = 0b100110 then some Mnemonic.XOR
  else none

def decode_regimm_instruction (instr : Instruction) : Option Mnemonic :=
  if instr.rt = 0b00001 then some Mnemonic.BGEZ
  else if instr.rt = 0b10001 then some Mnemonic.BGEZAL
  else if instr.rt = 0b00000 then some Mnemonic.BLTZ
  else if instr.rt = 0b10000 then some Mnemonic.BLTZAL
  else none

def decode_copz_instruction (instr : Instruction) : Option Mnemonic :=
  if instr.rs = 0b10000 then some Mnemonic.COPz
  else if instr.rs = 0b00010 then some Mnemonic.CFCz
  else if instr.rs = 0b00000 then some Mnemonic.MFCz
  else if instr.rs = 0b00100 then some Mnemonic.MTCz
  else none

def decode_instruction (word : Nat) : Option (Mnemonic × Instruction) :=
  let instr : Instruction := ⟨word⟩
  let mn : Option Mnemonic :=
    if instr.op = 0b000000 then decode_register_instruction instr
    else if instr.op = 0b000001 then decode_regimm_instruction instr
    else if instr.op >>> 2 = 0b0100 then decode_copz_instruction instr
    else if instr.op >>> 2 = 0b1100 then some Mnemonic.LWCz
    else if instr.op >>> 2 = 0b1110 then some Mnemonic.SWCz
    else if instr.op = 0b001000 then some Mnemonic.ADDI
    else if instr.op = 0b001001 then some Mnemonic.ADDIU
    else if instr.op = 0b001100 then some Mnemonic.ANDI
    else if instr.op = 0b000100 then some Mnemonic.BEQ
    else if instr.op = 0b000111 then some Mnemonic.BGTZ
    else if instr.op = 0b000110 then some Mnemonic.BLEZ
    else if instr.op = 0b000101 then some Mnemonic.BNE
    else if instr.op = 0b000010 then some Mnemonic.J
    else if instr.op = 0b000011 then some Mnemonic.JAL
    else if instr.op = 0b100000 then some Mnemonic.LB
    else if instr.op = 0b100100 then some Mnemonic.LBU
    else if instr.op = 0b100001 then some Mnemonic.LH
    else if instr.op = 0b100101 then some Mnemonic.LHU
    else if instr.op = 0b001111 then some Mnemonic.LUI
    else if instr.op = 0b100011 then some Mnemonic.LW
    else if instr.op = 0b100010 then some Mnemonic.LWL
    else if instr.op = 0b100110 then some Mnemonic.LWR
    else if instr.op = 0b001101 then some Mnemonic.ORI
    else if instr.op = 0b101000 then some Mnemonic.SB
    else if instr.op = 0b101001 then some Mnemonic.SH
    else if instr.op = 0b001010 then some Mnemonic.SLTI
    else if instr.op = 0b001011 then some Mnemonic.SLTIU
    else if instr.op = 0b101011 then some Mnemonic.SW
    else if instr.op = 0b101010 then some Mnemonic.SWL
    else if instr.op = 0b101110 then some Mnemonic.SWR
    else if instr.op = 0b001110 then some Mnemonic.XORI
    else some Mnemonic.ILLEGAL
  mn.map (fun m => (m, instr))

/-! ### Architectural exceptions

Modelled from the spec: the closed enumeration of §7, in declaration order
(its defining module is not part of the snapshot; only its users are). -/

inductive Exception where
  | Interrupt | TLBModification | TLBLoad | TLBStore
  | AddressLoad | AddressStore | ExtBusInstructionFetch | ExtBusDataLoad
  | Syscall | Breakpoint | ReservedInstruction | CoprocessorUnusable
  | IntegerOverflow
deriving DecidableEq, Repr

/-- Modelled from the spec: the Rust `exc as u32` discriminant, determined
by the declaration order of the §7 enumeration (0 for Interrupt through
12 for IntegerOverflow, the MIPS ExcCodes). -/
def Exception.code : Exception → Nat
  | .Interrupt => 0
  | .TLBModification => 1
  | .TLBLoad => 2
  | .TLBStore => 3
  | .AddressLoad => 4
  | .AddressStore => 5
  | .ExtBusInstructionFetch => 6
  | .ExtBusDataLoad => 7
  | .Syscall => 8
  | .Breakpoint => 9
  | .ReservedInstruction => 10
  | .CoprocessorUnusable => 11
  | .IntegerOverflow => 12

/-- Modelled from the spec: general exception vector, BEV clear (§6). -/
def MagicAddress.MiscException : Nat := 0x80000080

/-- Modelled from the spec: general exception vector, BEV set (§6). -/
def MagicAddress.MiscExceptionBev : Nat := 0xBFC00180

/-- Modelled from the spec: TLB-miss vector, BEV clear (§6). -/
def MagicAddress.TLBMiss : Nat := 0x80000000

/-- Modelled from the spec: TLB-miss vector, BEV set (§6). -/
def MagicAddress.TLBMissBev : Nat := 0xBFC00100

/-! ### Cop0 (`src/devices/cop0.rs`) -/

structure Cop0 where
  sr : Nat
  cause : Nat
  epc : Nat
deriving DecidableEq, Repr

def Cop0.new : Cop0 := { sr := 0, cause := 0, epc := 0 }

def Cop0.is_cache_isolated (c : Cop0) : Bool := decide (0 < c.sr &&& 0x00010000)

def Cop0.is_bev (c : Cop0) : Bool := decide (0 < c.sr &&& 0x00400000)

/-- `Cop0::mtc`; the `panic!` arms (nonzero writes to breakpoint registers
or to Cause) and the `todo!` fallthrough are `none`. -/
def Cop0.mtc (c : Cop0) (regidx data : Nat) : Option Cop0 :=
  if regidx = 12 then some { c with sr := data }
  else if regidx = 3 ∨ regidx = 5 ∨ regidx = 6 ∨ regidx = 7 ∨ regidx = 9 ∨ regidx = 11 then
    if data ≠ 0 then none else some c
  else if regidx = 13 then
    if data ≠ 0 then none else some { c with cause := data }
  else if regidx = 14 then some { c with epc := data }
  else none

/-- `Cop0::mfc`; the `todo!` fallthrough is `none`. -/
def Cop0.mfc (c : Cop0) (regidx : Nat) : Option Nat :=
  if regidx = 12 then some c.sr
  else if regidx = 13 then some c.cause
  else if regidx = 14 then some c.epc
  else none

/-- `cop0::handle_exception` (lines 104-134).  The Rust function mutates
`cpu.cop0` and returns the vector address; here it returns the updated
Cop0 together with that address.  Note that `is_bev` is consulted on the
already-updated `SR`, as in the source. -/
def handle_exception (c : Cop0) (exc : Exception) (pc : Nat) (is_delay_slot : Bool) :
    Cop0 × Nat :=
  let cause0 := exc.code <<< 2
  let mode := c.sr &&& 0x3F
  let sr2 := (c.sr &&& 0xFFFFFFC0) ||| ((mode <<< 2) &&& 0x3F)
  let cause1 := if is_delay_slot then cause0 ||| 0x80000000 else cause0
  let epc1 := if is_delay_slot then wsub32 pc 4 else pc
  let c2 : Cop0 := { sr := sr2, cause := cause1, epc := epc1 }
  let is_tlb_exc :=
    exc = Exception.TLBModification ∨ exc = Exception.TLBLoad ∨ exc = Exception.TLBStore
  let vector :=
    if is_tlb_exc then
      if c2.is_bev then MagicAddress.TLBMissBev else MagicAddress.TLBMiss
    else
      if c2.is_bev then MagicAddress.MiscExceptionBev else MagicAddress.MiscException
  (c2, vector)

/-! ### The bus stub

The CPU talks to the rest of the machine through the `BusDevice` trait;
the spec (§1, §6) allows any stub satisfying the bus contract.  The stub
used here is a byte-addressed little-endian store, plus a log of the write
operations performed, so that "the store was dropped" is observable. -/

structure Bus where
  mem : Nat → Nat
  log : List (Nat × Nat × Nat)

def bus_read8 (b : Bus) (a : Nat) : Nat := b.mem a % 256

def bus_read16 (b : Bus) (a : Nat) : Nat :=
  bus_read8 b a + 256 * bus_read8 b (a + 1)

def bus_read32 (b : Bus) (a : Nat) : Nat :=
  bus_read8 b a + 256 * bus_read8 b (a + 1) + 65536 * bus_read8 b (a + 2)
    + 16777216 * bus_read8 b (a + 3)

def bus_write8 (b : Bus) (a d : Nat) : Bus :=
  { mem := fun x => if x = a then d % 256 else b.mem x
    log := (1, a, d % 256) :: b.log }

def bus_write16 (b : Bus) (a d : Nat) : Bus :=
  { mem := fun x =>
      if x = a then d % 256
      else if x = a + 1 then d / 256 % 256
      else b.mem x
    log := (2, a, d % 65536) :: b.log }

def bus_write32 (b : Bus) (a d : Nat) : Bus :=
  { mem := fun x =>
      if x = a then d % 256
      else if x = a + 1 then d / 256 % 256
      else if x = a + 2 then d / 65536 % 256
      else if x = a + 3 then d / 16777216 % 256
      else b.mem x
    log := (4, a, d % 4294967296) :: b.log }

/-! ### CPU state and the machine aggregate

Modelled from the spec (§3) and from every field access in
`src/devices/cpu/cpu.rs` (the defining module of `CpuState` is not part of
the snapshot).  `Machine` plays the role of the motherboard: the `CpuR3000`
fields (`state`, `cycles`, `cop0`) plus the bus. -/

structure CpuState where
  registers : Nat → Nat
  pc : Nat
  hi : Nat
  lo : Nat
  next_instruction : Nat × Nat
  next_load : Nat × Nat
  is_branch_delay : Bool
  wait : Nat

structure Machine where
  cpu : CpuState
  cycles : Nat
  cop0 : Cop0
  bus : Bus

/-! ### Register file and CPU helpers (`src/devices/cpu/cpu.rs` lines 56-83) -/

/-- `write_reg` on the raw register array: store, then re-zero entry 0. -/
def write_reg_file (regs : Nat → Nat) (addr data : Nat) : Nat → Nat :=
  fun i => if i = 0 then 0 else if i = addr then data else regs i

def write_reg (mb : Machine) (addr data : Nat) : Machine :=
  { mb with cpu := { mb.cpu with registers := write_reg_file mb.cpu.registers addr data } }

def get_reg (mb : Machine) (addr : Nat) : Nat := mb.cpu.registers addr

/-- `branch`: `pc.wrapping_add(sign_extend!((offset as u32) << 2)) - 4`.
Note the source applies `sign_extend!` to the already-shifted value. -/
def branch (c : CpuState) (offset : Nat) : CpuState :=
  { c with pc := wsub32 (wrap32 (c.pc + sign_extend (offset <<< 2))) 4 }

/-- The store-side `write` helper: drops the write when the cache-isolated
bit of Cop0's SR is set. -/
def cpu_write8 (mb : Machine) (addr data : Nat) : Machine :=
  if mb.cop0.is_cache_isolated then mb
  else { mb with bus := bus_write8 mb.bus addr data }

def cpu_write16 (mb : Machine) (addr data : Nat) : Machine :=
  if mb.cop0.is_cache_isolated then mb
  else { mb with bus := bus_write16 mb.bus addr data }

def cpu_write32 (mb : Machine) (addr data : Nat) : Machine :=
  if mb.cop0.is_cache_isolated then mb
  else { mb with bus := bus_write32 mb.bus addr data }

/-- Rust `i32::checked_add`. -/
def checked_add_i32 (a b : Int) : Option Int :=
  if -2147483648 ≤ a + b ∧ a + b < 2147483648 then some (a + b) else none

/-- Rust `i32::checked_sub`. -/
def checked_sub_i32 (a b : Int) : Option Int :=
  if -2147483648 ≤ a - b ∧ a - b < 2147483648 then some (a - b) else none

/-- Handler result: `none` models a host-fatal `panic!`/`todo!`; otherwise
the mutated machine and the `Option<Exception>` the Rust handler returns. -/
def OpHandler : Type := Machine → Instruction → Option (Machine × Option Exception)

/-! ### Instruction handlers (`src/devices/cpu/cpu.rs` lines 219-969) -/

def op_add : OpHandler := fun mb instr =>
  let source_data := get_reg mb instr.rs
  let target_data := get_reg mb instr.rt
  match checked_add_i32 (toI32 source_data) (toI32 target_data) with
  | some res => some (write_reg mb instr.rd (toU32 res), none)
  | none => some (mb, some Exception.IntegerOverflow)

def op_addi : OpHandler := fun mb instr =>
  let data := sign_extend instr.immediate
  let source_data := get_reg mb instr.rs
  match checked_add_i32 (toI32 source_data) (toI32 data) with
  | some res => some (write_reg mb instr.rt (toU32 res), none)
  | none => some (mb, some Exception.IntegerOverflow)

def op_addiu : OpHandler := fun mb instr =>
  let data := sign_extend instr.immediate
  some (write_reg mb instr.rt (wrap32 (get_reg mb instr.rs + data)), none)

def op_addu : OpHandler := fun mb instr =>
  some (write_reg mb instr.rd (wrap32 (get_reg mb instr.rs + get_reg mb instr.rt)), none)

def op_and : OpHandler := fun mb instr =>
  some (write_reg mb instr.rd (get_reg mb instr.rs &&& get_reg mb instr.rt), none)

def op_andi : OpHandler := fun mb instr =>
  let data := zero_extend instr.immediate
  some (write_reg mb instr.rt (get_reg mb instr.rs &&& data), none)

def op_beq : OpHandler := fun mb instr =>
  if get_reg mb instr.rs = get_reg mb instr.rt then
    some ({ mb with cpu := branch mb.cpu instr.immediate }, none)
  else some (mb, none)

def op_bgez : OpHandler := fun mb instr =>
  if 0 ≤ toI32 (get_reg mb instr.rs) then
    some ({ mb with cpu := branch mb.cpu instr.immediate }, none)
  else some (mb, none)

def op_bgezal : OpHandler := fun mb instr =>
  let pc := mb.cpu.pc
  let mb1 := write_reg mb 31 pc
  if 0 ≤ toI32 (get_reg mb1 instr.rs) then
    some ({ mb1 with cpu := branch mb1.cpu instr.immediate }, none)
  else some (mb1, none)

def op_bgtz : OpHandler := fun mb instr =>
  if 0 < toI32 (get_reg mb instr.rs) then
    some ({ mb with cpu := branch mb.cpu instr.immediate }, none)
  else some (mb, none)

def op_blez : OpHandler := fun mb instr =>
  if toI32 (get_reg mb instr.rs) ≤ 0 then
    some ({ mb with cpu := branch mb.cpu instr.immediate }, none)
  else some (mb, none)

def op_bltz : OpHandler := fun mb instr =>
  if toI32 (get_reg mb instr.rs) < 0 then
    some ({ mb with cpu := branch mb.cpu instr.immediate }, none)
  else some (mb, none)

def op_bltzal : OpHandler := fun mb instr =>
  let pc := mb.cpu.pc
  let mb1 := write_reg mb 31 pc
  if toI32 (get_reg mb1 instr.rs) < 0 then
    some ({ mb1 with cpu := branch mb1.cpu instr.immediate }, none)
  else some (mb1, none)

def op_bne : OpHandler := fun mb instr =>
  if get_reg mb instr.rs ≠ get_reg mb instr.rt then
    some ({ mb with cpu := branch mb.cpu instr.immediate }, none)
  else some (mb, none)

def op_break : OpHandler := fun mb _ => some (mb, some Exception.Breakpoint)

def op_cfcz : OpHandler := fun mb instr =>
  let coproc := instr.op &&& 0b11
  if coproc = 2 then none
  else some (mb, some Exception.CoprocessorUnusable)

/-- `cop0::handle_cop_instr`: only RFE is implemented; the TLB ops are
`todo!` and unknown functs `panic!`, both modelled as `none`. -/
def handle_cop_instr (c : Cop0) (instr : Instruction) : Option Cop0 :=
  if instr.funct = 0b010000 then
    let mode := c.sr &&& 0x3F
    some { c with sr := (c.sr &&& 0xFFFFFFC0) ||| (mode >>> 2) }
  else none

def op_copz : OpHandler := fun mb instr =>
  let coproc := instr.op &&& 0b11
  if coproc = 0 then
    match handle_cop_instr mb.cop0 instr with
    | some c => some ({ mb with cop0 := c }, none)
    | none => none
  else if coproc = 2 then none
  else some (mb, some Exception.CoprocessorUnusable)

def op_ctcz : OpHandler := fun mb instr =>
  let coproc := instr.op &&& 0b11
  if coproc = 2 then none
  else some (mb, some Exception.CoprocessorUnusable)

def op_div : OpHandler := fun mb instr =>
  let numerator := toI32 (get_reg mb instr.rs)
  let denominator := toI32 (get_reg mb instr.rt)
  if denominator = 0 then
    some ({ mb with cpu := { mb.cpu with
      hi := toU32 numerator
      lo := if 0 ≤ numerator then 0xFFFFFFFF else 0x00000001 } }, none)
  else if numerator = -2147483648 ∧ denominator = -1 then
    some ({ mb with cpu := { mb.cpu with hi := 0, lo := 0x80000000 } }, none)
  else
    some ({ mb with cpu := { mb.cpu with
      hi := toU32 (Int.tmod numerator denominator)
      lo := toU32 (Int.tdiv numerator denominator) } }, none)

def op_divu : OpHandler := fun mb instr =>
  let numerator := get_reg mb instr.rs
  let denominator := get_reg mb instr.rt
  if denominator = 0 then
    some ({ mb with cpu := { mb.cpu with
      hi := numerator
      lo := if 0 ≤ toI32 numerator then 0xFFFFFFFF else 0x00000001 } }, none)
  else
    some ({ mb with cpu := { mb.cpu with
      hi := numerator % denominator
      lo := numerator / denominator } }, none)

def op_j : OpHandler := fun mb instr =>
  let target := instr.target <<< 2
  let new_pc := target ||| (mb.cpu.pc &&& 0xF0000000)
  some ({ mb with cpu := { mb.cpu with pc := wsub32 new_pc 4, is_branch_delay := true } }, none)

def op_jal : OpHandler := fun mb instr =>
  let pc := mb.cpu.pc
  let mb1 := write_reg mb 31 (wrap32 (pc + 4))
  op_j mb1 instr

def op_jalr : OpHandler := fun mb instr =>
  let pc := mb.cpu.pc
  let mb1 := write_reg mb 31 (wrap32 (pc + 4))
  let jmp_to := get_reg mb1 instr.rs
  some ({ mb1 with cpu := { mb1.cpu with pc := wsub32 jmp_to 4, is_branch_delay := true } }, none)

def op_jr : OpHandler := fun mb instr =>
  let jmp_to := get_reg mb instr.rs
  some ({ mb with cpu := { mb.cpu with pc := wsub32 jmp_to 4, is_branch_delay := true } }, none)

def op_lb : OpHandler := fun mb instr =>
  let base := get_reg mb instr.rs
  let addr := wrap32 (base + sign_extend instr.immediate)
  let data := bus_read8 mb.bus addr
  let val := if data < 128 then data else data + 0xFFFFFF00
  some ({ mb with cpu := { mb.cpu with next_load := (instr.rt, val) } }, none)

def op_lbu : OpHandler := fun mb instr =>
  let base := get_reg mb instr.rs
  let addr := wrap32 (base + sign_extend instr.immediate)
  let data := bus_read8 mb.bus addr
  some ({ mb with cpu := { mb.cpu with next_load := (instr.rt, data) } }, none)

/-- `op_lh` reads a single byte (`read::<T, u8>`) and widens `u8 → i16 →
u32`, which is the identity on 0..255. -/
def op_lh : OpHandler := fun mb instr =>
  let base := get_reg mb instr.rs
  let addr := wrap32 (base + sign_extend instr.immediate)
  let data := bus_read8 mb.bus addr
  some ({ mb with cpu := { mb.cpu with next_load := (instr.rt, data) } }, none)

/-- `op_lhu` likewise reads a single byte and widens `u8 → u16 → u32`. -/
def op_lhu : OpHandler := fun mb instr =>
  let base := get_reg mb instr.rs
  let addr := wrap32 (base + sign_extend instr.immediate)
  let data := bus_read8 mb.bus addr
  some ({ mb with cpu := { mb.cpu with next_load := (instr.rt, data) } }, none)

def op_lui : OpHandler := fun mb instr =>
  let data := instr.immediate <<< 16
  some (write_reg mb instr.rt data, none)

def op_lw : OpHandler := fun mb instr =>
  let base := get_reg mb instr.rs
  let addr := wrap32 (base + sign_extend instr.immediate)
  let data := bus_read32 mb.bus addr
  some ({ mb with cpu := { mb.cpu with next_load := (instr.rt, data) } }, none)

def op_lwcz : OpHandler := fun mb instr =>
  let coproc := instr.op &&& 0b11
  if coproc = 2 then none
  else some (mb, some Exception.CoprocessorUnusable)

def op_lwl : OpHandler := fun mb instr =>
  let base := get_reg mb instr.rs
  let addr := wrap32 (base + sign_extend instr.immediate)
  let current := get_reg mb instr.rt
  let aligned_word := bus_read32 mb.bus (addr &&& 0xFFFFFFFC)
  let new_val :=
    if addr &&& 0x3 = 0 then (current &&& 0x00FFFFFF) ||| wrap32 (aligned_word <<< 24)
    else if addr &&& 0x3 = 1 then (current &&& 0x0000FFFF) ||| wrap32 (aligned_word <<< 16)
    else if addr &&& 0x3 = 2 then (current &&& 0x000000FF) ||| wrap32 (aligned_word <<< 8)
    else (current &&& 0x00000000) ||| aligned_word
  some (write_reg mb instr.rt new_val, none)

def op_lwr : OpHandler := fun mb instr =>
  let base := get_reg mb instr.rs
  let addr := wrap32 (base + sign_extend instr.immediate)
  let current := get_reg mb instr.rt
  let aligned_word := bus_read32 mb.bus (addr &&& 0xFFFFFFFC)
  let new_val :=
    if addr &&& 0x3 = 0 then (current &&& 0x00000000) ||| aligned_word
    else if addr &&& 0x3 = 1 then (current &&& 0xFF000000) ||| (aligned_word >>> 8)
    else if addr &&& 0x3 = 2 then (current &&& 0xFFFF0000) ||| (aligned_word >>> 16)
    else (current &&& 0xFFFFFF00) ||| (aligned_word >>> 24)
  some (write_reg mb instr.rt new_val, none)

def op_mfcz : OpHandler := fun mb instr =>
  let coproc := instr.op &&& 0b11
  if coproc = 0 then
    match Cop0.mfc mb.cop0 instr.rd with
    | some data => some ({ mb with cpu := { mb.cpu with next_load := (instr.rt, data) } }, none)
    | none => none
  else if coproc = 2 then none
  else some (mb, some Exception.CoprocessorUnusable)

def op_mfhi : OpHandler := fun mb instr =>
  some (write_reg mb instr.rd mb.cpu.hi, none)

def op_mflo : OpHandler := fun mb instr =>
  some (write_reg mb instr.rd mb.cpu.lo, none)

def op_mthi : OpHandler := fun mb instr =>
  some ({ mb with cpu := { mb.cpu with hi := get_reg mb instr.rs } }, none)

def op_mtlo : OpHandler := fun mb instr =>
  some ({ mb with cpu := { mb.cpu with lo := get_reg mb instr.rs } }, none)

/-- `as i32 as u64`: sign-extend a u32 value to 64 bits. -/
def se64 (x : Nat) : Nat :=
  if x % 4294967296 < 2147483648 then x % 4294967296
  else x % 4294967296 + 0xFFFFFFFF00000000

/-- `op_mult` multiplies the sign-extended u64 images; the debug-profile
`u64` overflow panic is modelled with release (wrapping) semantics. -/
def op_mult : OpHandler := fun mb instr =>
  let a := se64 (get_reg mb instr.rs)
  let b := se64 (get_reg mb instr.rt)
  let v := (a * b) % 18446744073709551616
  some ({ mb with cpu := { mb.cpu with hi := v >>> 32, lo := v &&& 0xFFFFFFFF } }, none)

def op_multu : OpHandler := fun mb instr =>
  let a := get_reg mb instr.rs
  let b := get_reg mb instr.rt
  let v := (a * b) % 18446744073709551616
  some ({ mb with cpu := { mb.cpu with hi := v >>> 32, lo := v &&& 0xFFFFFFFF } }, none)

def op_mtcz : OpHandler := fun mb instr =>
  let coproc := instr.op &&& 0b11
  let data := get_reg mb instr.rt
  if coproc = 0 then
    match Cop0.mtc mb.cop0 instr.rd data with
    | some c => some ({ mb with cop0 := c }, none)
    | none => none
  else if coproc = 2 then none
  else some (mb, some Exception.CoprocessorUnusable)

def op_nor : OpHandler := fun mb instr =>
  some (write_reg mb instr.rd
    (0xFFFFFFFF ^^^ (get_reg mb instr.rs ||| get_reg mb instr.rt)), none)

def op_or : OpHandler := fun mb instr =>
  some (write_reg mb instr.rd (get_reg mb instr.rs ||| get_reg mb instr.rt), none)

def op_ori : OpHandler := fun mb instr =>
  let data := zero_extend instr.immediate
  some (write_reg mb instr.rt (get_reg mb instr.rs ||| data), none)

def op_sb : OpHandler := fun mb instr =>
  let data := sign_extend instr.immediate
  let addr := wrap32 (mb.cpu.registers instr.rs + data)
  some (cpu_write8 mb addr (get_reg mb instr.rt &&& 0xFF), none)

def op_sh : OpHandler := fun mb instr =>
  let data := sign_extend instr.immediate
  let addr := wrap32 (mb.cpu.registers instr.rs + data)
  some (cpu_write16 mb addr (get_reg mb instr.rt &&& 0xFFFF), none)

def op_sll : OpHandler := fun mb instr =>
  let shamt := instr.shamt
  some (write_reg mb instr.rd (wrap32 (get_reg mb instr.rt <<< (shamt % 32))), none)

def op_sllv : OpHandler := fun mb instr =>
  let shift := get_reg mb instr.rs &&& 0b00011111
  some (write_reg mb instr.rd (wrap32 (get_reg mb instr.rt <<< shift)), none)

def op_slt : OpHandler := fun mb instr =>
  let v := if toI32 (get_reg mb instr.rs) < toI32 (get_reg mb instr.rt) then 1 else 0
  some (write_reg mb instr.rd v, none)

def op_slti : OpHandler := fun mb instr =>
  let target := sign_extend instr.immediate
  let v := if toI32 (get_reg mb instr.rs) < toI32 target then 1 else 0
  some (write_reg mb instr.rt v, none)

def op_sltiu : OpHandler := fun mb instr =>
  let target := sign_extend instr.immediate
  let v := if get_reg mb instr.rs < target then 1 else 0
  some (write_reg mb instr.rt v, none)

def op_sltu : OpHandler := fun mb instr =>
  let v := if get_reg mb instr.rs < get_reg mb instr.rt then 1 else 0
  some (write_reg mb instr.rd v, none)

/-- Arithmetic shift right on the i32 image; `wrapping_shr` masks the
shift count to 5 bits. -/
def sra32 (x sh : Nat) : Nat := toU32 (Int.fdiv (toI32 x) (2 ^ (sh % 32)))

def op_sra : OpHandler := fun mb instr =>
  some (write_reg mb instr.rd (sra32 (get_reg mb instr.rt) instr.shamt), none)

def op_srav : OpHandler := fun mb instr =>
  let shift := get_reg mb instr.rs &&& 0b00011111
  some (write_reg mb instr.rd (sra32 (get_reg mb instr.rt) shift), none)

def op_srl : OpHandler := fun mb instr =>
  let shamt := instr.shamt
  some (write_reg mb instr.rd (get_reg mb instr.rt >>> (shamt % 32)), none)

def op_srlv : OpHandler := fun mb instr =>
  let shift := get_reg mb instr.rs &&& 0b00011111
  some (write_reg mb instr.rd (get_reg mb instr.rt >>> shift), none)

def op_sub : OpHandler := fun mb instr =>
  let source_data := get_reg mb instr.rs
  let target_data := get_reg mb instr.rt
  match checked_sub_i32 (toI32 source_data) (toI32 target_data) with
  | some res => some (write_reg mb instr.rd (toU32 res), none)
  | none => some (mb, some Exception.IntegerOverflow)

def op_subu : OpHandler := fun mb instr =>
  let res := toI32 (get_reg mb instr.rs) - toI32 (get_reg mb instr.rt)
  some (write_reg mb instr.rd (toU32 res), none)

def op_sw : OpHandler := fun mb instr =>
  let data := sign_extend instr.immediate
  let addr := wrap32 (mb.cpu.registers instr.rs + data)
  some (cpu_write32 mb addr (get_reg mb instr.rt), none)

def op_swcz : OpHandler := fun mb instr =>
  let coproc := instr.op &&& 0b11
  if coproc = 2 then none
  else some (mb, some Exception.CoprocessorUnusable)

/-- `op_swl` reads the aligned word and writes the merged word back with
`mb.write` — the raw bus write, not the isolation-checking helper. -/
def op_swl : OpHandler := fun mb instr =>
  let base := get_reg mb instr.rs
  let addr := wrap32 (base + sign_extend instr.immediate)
  let current := bus_read32 mb.bus (addr &&& 0xFFFFFFFC)
  let aligned_byte := get_reg mb instr.rt
  let new_val :=
    if addr &&& 0x3 = 0 then (current &&& 0x00FFFFFF) ||| wrap32 (aligned_byte <<< 24)
    else if addr &&& 0x3 = 1 then (current &&& 0x0000FFFF) ||| wrap32 (aligned_byte <<< 16)
    else if addr &&& 0x3 = 2 then (current &&& 0x000000FF) ||| wrap32 (aligned_byte <<< 8)
    else (current &&& 0x00000000) ||| aligned_byte
  some ({ mb with bus := bus_write32 mb.bus (addr &&& 0xFFFFFFFC) new_val }, none)

/-- `op_swr` likewise writes back through the raw bus write. -/
def op_swr : OpHandler := fun mb instr =>
  let base := get_reg mb instr.rs
  let addr := wrap32 (base + sign_extend instr.immediate)
  let current := bus_read32 mb.bus (addr &&& 0xFFFFFFFC)
  let aligned_byte := get_reg mb instr.rt
  let new_val :=
    if addr &&& 0x3 = 0 then (current &&& 0x00000000) ||| aligned_byte
    else if addr &&& 0x3 = 1 then (current &&& 0xFF000000) ||| (aligned_byte >>> 8)
    else if addr &&& 0x3 = 2 then (current &&& 0xFFFF0000) ||| (aligned_byte >>> 16)
    else (current &&& 0xFFFFFF00) ||| (aligned_byte >>> 24)
  some ({ mb with bus := bus_write32 mb.bus (addr &&& 0xFFFFFFFC) new_val }, none)

def op_syscall : OpHandler := fun mb _ => some (mb, some Exception.Syscall)

def op_xor : OpHandler := fun mb instr =>
  some (write_reg mb instr.rd (get_reg mb instr.rs ^^^ get_reg mb instr.rt), none)

def op_xori : OpHandler := fun mb instr =>
  let data := zero_extend instr.immediate
  some (write_reg mb instr.rt (get_reg mb instr.rs ^^^ data), none)

def op_illegal : OpHandler := fun mb _ => some (mb, some Exception.ReservedInstruction)

/-- `match_handler` (lines 148-217): the dense dispatch table. -/
def match_handler : Mnemonic → OpHandler
  | .ADD => op_add
  | .ADDI => op_addi
  | .ADDIU => op_addiu
  | .ADDU => op_addu
  | .AND => op_and
  | .ANDI => op_andi
  | .BEQ => op_beq
  | .BGEZ => op_bgez
  | .BGEZAL => op_bgezal
  | .BGTZ => op_bgtz
  | .BLEZ => op_blez
  | .BLTZ => op_bltz
  | .BLTZAL => op_bltzal
  | .BNE => op_bne
  | .BREAK => op_break
  | .CFCz => op_cfcz
  | .COPz => op_copz
  | .CTCz => op_ctcz
  | .DIV => op_div
  | .DIVU => op_divu
  | .J => op_j
  | .JAL => op_jal
  | .JALR => op_jalr
  | .JR => op_jr
  | .LB => op_lb
  | .LBU => op_lbu
  | .LH => op_lh
  | .LHU => op_lhu
  | .LUI => op_lui
  | .LW => op_lw
  | .LWCz => op_lwcz
  | .LWL => op_lwl
  | .LWR => op_lwr
  | .MFCz => op_mfcz
  | .MFHI => op_mfhi
  | .MFLO => op_mflo
  | .MTCz => op_mtcz
  | .MTHI => op_mthi
  | .MTLO => op_mtlo
  | .MULT => op_mult
  | .MULTU => op_multu
  | .NOR => op_nor
  | .OR => op_or
  | .ORI => op_ori
  | .SB => op_sb
  | .SH => op_sh
  | .SLL => op_sll
  | .SLLV => op_sllv
  | .SLT => op_slt
  | .SLTI => op_slti
  | .SLTIU => op_sltiu
  | .SLTU => op_sltu
  | .SRA => op_sra
  | .SRAV => op_srav
  | .SRL => op_srl
  | .SRLV => op_srlv
  | .SUB => op_sub
  | .SUBU => op_subu
  | .SW => op_sw
  | .SWCz => op_swcz
  | .SWL => op_swl
  | .SWR => op_swr
  | .SYSCALL => op_syscall
  | .XOR => op_xor
  | .XORI => op_xori
  | .ILLEGAL => op_illegal

/-- `exec` (lines 96-141): one unconditional step of the CPU.

Pre-execution: fetch the word at `PC` as the new pending instruction,
clear the branch-delay latch, apply the pending load to the raw register
array, reset the pending load.  Then decode and run the handler of the
previously pending instruction.  Post-execution: bump the cycle counter;
on success advance `PC` by 4, on an exception clear the pending load and
vector through Cop0. -/
def exec (mb : Machine) : Option Machine :=
  let cur_instruction := mb.cpu.next_instruction.1
  let cur_pc := mb.cpu.next_instruction.2
  let next_pc := mb.cpu.pc
  let is_in_delay_slot := mb.cpu.is_branch_delay
  let next_instruction := bus_read32 mb.bus next_pc
  let mb1 : Machine := { mb with cpu := { mb.cpu with
      next_instruction := (next_instruction, next_pc)
      is_branch_delay := false
      registers := fun i =>
        if i = mb.cpu.next_load.1 then mb.cpu.next_load.2 else mb.cpu.registers i
      next_load := (0, 0) } }
  match decode_instruction cur_instruction with
  | none => none
  | some (mnemonic, instruction) =>
    match match_handler mnemonic mb1 instruction with
    | none => none
    | some (mb2, res) =>
      let mb3 : Machine := { mb2 with cycles := mb2.cycles + 1 }
      match res with
      | none => some { mb3 with cpu := { mb3.cpu with pc := wrap32 (mb3.cpu.pc + 4) } }
      | some exc =>
        let mb4 : Machine := { mb3 with cpu := { mb3.cpu with next_load := (0, 0) } }
        let he := handle_exception mb4.cop0 exc cur_pc is_in_delay_slot
        let exc_instr := bus_read32 mb4.bus he.2
        some { mb4 with
          cop0 := he.1
          cpu := { mb4.cpu with
            next_instruction := (exc_instr, he.2)
            pc := wrap32 (he.2 + 4) } }

/-! ### The address mapper (`src/utils/memorymap.rs`) -/

inductive Segment where
  | KUSEG | KSEG0 | KSEG1 | KSEG2
deriving DecidableEq, Repr

inductive Device where
  | RAM | Expansion1 | Scratch | MemCtrl | IOPeripheral | RamCtrl | IntCtrl
  | DMA | Timers | SPU | Expansion2 | Expansion3 | BIOS | IOCacheControl
  | None | VMemException
deriving DecidableEq, Repr

/-- `Range`; the Rust field `end` is spelled `rend` (Lean keyword). -/
structure MRange where
  start : Nat
  length : Nat
  rend : Nat
deriving DecidableEq, Repr

def MRange.new (start length : Nat) : MRange :=
  { start := start, length := length, rend := wrap32 (start + length) }

def MRange.contains (r : MRange) (addr : Nat) : Bool :=
  decide (r.start ≤ addr) && decide (addr < r.rend)

def MRange.as_local_addr (r : MRange) (addr : Nat) : Nat := addr - r.start

def RANGES : List (Device × MRange) :=
  [ (Device.RAM, MRange.new 0x00000000 (2048 * 1024))
  , (Device.Expansion1, MRange.new 0x0F000000 (8192 * 1024))
  , (Device.Scratch, MRange.new 0x0F800000 1024)
  , (Device.MemCtrl, MRange.new 0x0F801000 0x24)
  , (Device.IOPeripheral, MRange.new 0x0F801040 0x20)
  , (Device.RamCtrl, MRange.new 0x0F801060 4)
  , (Device.IntCtrl, MRange.new 0x0F801070 8)
  , (Device.DMA, MRange.new 0x0F801080 128)
  , (Device.Timers, MRange.new 0x0F801100 0x30)
  , (Device.SPU, MRange.new 0x0F801C00 640)
  , (Device.Expansion2, MRange.new 0x0F802000 (8 * 1024))
  , (Device.Expansion3, MRange.new 0x0FA00000 (2048 * 1024))
  , (Device.BIOS, MRange.new 0x0FC00000 (512 * 1024))
  , (Device.IOCacheControl, MRange.new 0x3FFE0000 512)
  ]

/-- The segment if-chain at the top of `map_device`; the `KSEG*_RANGE.end`
constants are inlined (`0x8000_0000`, `0xA000_0000`, `0xC000_0000`). -/
def segment_of (addr : Nat) : Segment :=
  if addr < 0x80000000 then Segment.KUSEG
  else if addr < 0xA0000000 then Segment.KSEG0
  else if addr < 0xC0000000 then Segment.KSEG1
  else Segment.KSEG2

/-- `map_device` (lines 118-161).  The `panic!` paths (bad KSEG2 offset, no
containing range, scratchpad from KSEG1) are `none`. -/
def map_device (addr : Nat) : Option (Segment × Device × Nat) :=
  let segment := segment_of addr
  if segment = Segment.KSEG2 then
    let a := addr - 0xC0000000
    if a < 0x3FFE0000 ∨ 0x3FFE0200 ≤ a then none
    else some (segment, Device.IOCacheControl, a - 0x3FFE0000)
  else
    let seg_local_addr := addr &&& 0x0FFFFFFF
    if 0x20000000 < seg_local_addr ∧ segment = Segment.KUSEG then
      some (segment, Device.VMemException, seg_local_addr)
    else
      match RANGES.find? (fun p => p.2.contains seg_local_addr) with
      | Option.none => none
      | some (dev, r) =>
        if segment = Segment.KSEG1 ∧ dev = Device.Scratch then none
        else some (segment, dev, r.as_local_addr seg_local_addr)

/-! ## Supporting lemmas for the Cop0 exception-vectoring claim -/

theorem and63 (x : Nat) : x &&& 63 = x % 64 := by
  have h := and_mask_mod x 6
  norm_num at h
  exact h

theorem bit22_pos_iff (x : Nat) : (0 < x &&& 0x400000) ↔ x / 4194304 % 2 = 1 := by
  have h1 : (0x400000 : Nat) = 1 <<< 22 := by decide
  rw [h1, and_shl_mask, Nat.and_one_is_mod]
  simp only [Nat.shiftLeft_eq, Nat.shiftRight_eq_div_pow]
  omega

theorem sr_and_high (x : Nat) (hx : x < 4294967296) :
    x &&& 0xFFFFFFC0 = (x >>> 6) <<< 6 := by
  have h1 : (0xFFFFFFC0 : Nat) = 0x3FFFFFF <<< 6 := by decide
  rw [h1, and_shl_mask]
  have h63 : (0x3FFFFFF : Nat) = 2 ^ 26 - 1 := by norm_num
  rw [h63, and_mask_mod]
  simp only [Nat.shiftLeft_eq, Nat.shiftRight_eq_div_pow]
  have h2 : x / 2 ^ 6 < 2 ^ 26 := by omega
  rw [Nat.mod_eq_of_lt h2]

/-- The SR update of `handle_exception` in arithmetic form: the bits above
the low 6 are untouched, the low 6 become the old low 6 shifted up by 2. -/
theorem handle_exception_sr (c : Cop0) (exc : Exception) (pc : Nat) (d : Bool)
    (hsr : c.sr < 4294967296) :
    (handle_exception c exc pc d).1.sr = c.sr / 64 * 64 + c.sr % 64 * 4 % 64 := by
  simp only [handle_exception]
  rw [sr_and_high c.sr hsr]
  simp only [and63]
  rw [or_eq_add_shl _ _ 6 (by omega)]
  simp only [Nat.shiftLeft_eq, Nat.shiftRight_eq_div_pow]

/-- Rotating the low six SR bits does not move bit 22 (the BEV flag). -/
theorem new_sr_bit22 (a : Nat) :
    (a / 64 * 64 + a % 64 * 4 % 64) / 4194304 = a / 4194304 := by
  have h1 : (4194304 : Nat) = 64 * 65536 := by norm_num
  rw [h1, ← Nat.div_div_eq_div_mul, ← Nat.div_div_eq_div_mul]
  have h2 : (a / 64 * 64 + a % 64 * 4 % 64) / 64 = a / 64 := by omega
  rw [h2]

/-! ## Supporting lemmas for the address-mirror claim -/

theorem segment_of_kuseg (x : Nat) (h : x < 0x80000000) : segment_of x = Segment.KUSEG := by
  unfold segment_of; rw [if_pos h]

theorem segment_of_kseg0 (x : Nat) (h1 : 0x80000000 ≤ x) (h2 : x < 0xA0000000) :
    segment_of x = Segment.KSEG0 := by
  unfold segment_of; rw [if_neg (by omega), if_pos h2]

theorem segment_of_kseg1 (x : Nat) (h1 : 0xA0000000 ≤ x) (h2 : x < 0xC0000000) :
    segment_of x = Segment.KSEG1 := by
  unfold segment_of; rw [if_neg (by omega), if_neg (by omega), if_pos h2]

theorem segment_of_kseg2 (x : Nat) (h : 0xC0000000 ≤ x) : segment_of x = Segment.KSEG2 := by
  unfold segment_of; rw [if_neg (by omega), if_neg (by omega), if_neg (by omega)]

/-- Outside KSEG2, `map_device` is the device-table lookup on the low 28
bits, vetoed for the scratchpad in KSEG1 (the virtual-memory branch is
unreachable: a 28-bit value never exceeds `0x2000_0000`). -/
theorem map_device_not_kseg2 (x : Nat) (hx : segment_of x ≠ Segment.KSEG2) :
    map_device x =
      (match RANGES.find? (fun p => p.2.contains (x &&& 0x0FFFFFFF)) with
       | Option.none => none
       | some (dev, r) =>
         if segment_of x = Segment.KSEG1 ∧ dev = Device.Scratch then none
         else some (segment_of x, dev, r.as_local_addr (x &&& 0x0FFFFFFF))) := by
  have hv : ¬ (0x20000000 < x &&& 0x0FFFFFFF ∧ segment_of x = Segment.KUSEG) := by
    have hle : x &&& 0x0FFFFFFF ≤ 0x0FFFFFFF := Nat.and_le_right
    rintro ⟨hc, _⟩
    omega
  simp only [map_device]
  rw [if_neg hx, if_neg hv]

theorem map_device_kseg2_none (x : Nat) (hx : 0xC0000000 ≤ x)
    (hc : x - 0xC0000000 < 0x3FFE0000 ∨ 0x3FFE0200 ≤ x - 0xC0000000) :
    map_device x = none := by
  have hseg := segment_of_kseg2 x hx
  simp only [map_device]
  rw [if_pos hseg, if_pos hc]

theorem kseg2_some_bounds (x : Nat) (hx : 0xC0000000 ≤ x)
    (h : (map_device x).isSome) :
    0x3FFE0000 ≤ x - 0xC0000000 ∧ x - 0xC0000000 < 0x3FFE0200 := by
  by_contra hcon
  rw [map_device_kseg2_none x hx (by omega)] at h
  simp at h

/-- The gap above the BIOS range: no device contains these low-28-bit
offsets, so the lookup fails there. -/
theorem find_none_high (m : Nat) (hm1 : 0x0FC80000 ≤ m) (hm2 : m < 0x10000000) :
    RANGES.find? (fun p => p.2.contains m) = Option.none := by
  rw [List.find?_eq_none]
  intro p hp
  fin_cases hp <;> simp [MRange.contains, MRange.new, wrap32] <;> omega

/-- Three non-KSEG2 addresses with the same low 28 bits map to the same
device and local offset whenever all three mappings succeed. -/
theorem map_mirror_core (x y z : Nat)
    (hx : segment_of x ≠ Segment.KSEG2) (hy : segment_of y ≠ Segment.KSEG2)
    (hz : segment_of z ≠ Segment.KSEG2)
    (hxy : y &&& 0x0FFFFFFF = x &&& 0x0FFFFFFF)
    (hxz : z &&& 0x0FFFFFFF = x &&& 0x0FFFFFFF)
    (h1 : (map_device x).isSome) (h2 : (map_device y).isSome)
    (h3 : (map_device z).isSome) :
    ∃ d o, map_device x = some (segment_of x, d, o) ∧
      map_device y = some (segment_of y, d, o) ∧
      map_device z = some (segment_of z, d, o) := by
  have ex := map_device_not_kseg2 x hx
  have ey := map_device_not_kseg2 y hy
  have ez := map_device_not_kseg2 z hz
  rw [hxy] at ey
  rw [hxz] at ez
  rcases hf : RANGES.find? (fun p => p.2.contains (x &&& 0x0FFFFFFF)) with _ | p
  · have ex2 : map_device x = none := by rw [ex, hf]
    rw [ex2] at h1
    simp at h1
  · obtain ⟨dev, r⟩ := p
    have ex2 : map_device x =
        (if segment_of x = Segment.KSEG1 ∧ dev = Device.Scratch then none
         else some (segment_of x, dev, r.as_local_addr (x &&& 0x0FFFFFFF))) := by
      rw [ex, hf]
    have ey2 : map_device y =
        (if segment_of y = Segment.KSEG1 ∧ dev = Device.Scratch then none
         else some (segment_of y, dev, r.as_local_addr (x &&& 0x0FFFFFFF))) := by
      rw [ey, hf]
    have ez2 : map_device z =
        (if segment_of z = Segment.KSEG1 ∧ dev = Device.Scratch then none
         else some (segment_of z, dev, r.as_local_addr (x &&& 0x0FFFFFFF))) := by
      rw [ez, hf]
    by_cases hcx : segment_of x = Segment.KSEG1 ∧ dev = Device.Scratch
    · rw [if_pos hcx] at ex2; rw [ex2] at h1; simp at h1
    by_cases hcy : segment_of y = Segment.KSEG1 ∧ dev = Device.Scratch
    · rw [if_pos hcy] at ey2; rw [ey2] at h2; simp at h2
    by_cases hcz : segment_of z = Segment.KSEG1 ∧ dev = Device.Scratch
    · rw [if_pos hcz] at ez2; rw [ez2] at h3; simp at h3
    rw [if_neg hcx] at ex2
    rw [if_neg hcy] at ey2
    rw [if_neg hcz] at ez2
    exact ⟨dev, r.as_local_addr (x &&& 0x0FFFFFFF), ex2, ey2, ez2⟩

/-! ## Supporting lemmas for the decoder claim -/

theorem decode_register_ne_add (instr : Instruction) :
    decode_register_instruction instr ≠ some Mnemonic.ADD := by
  have h : instr.funct ≤ 31 := Nat.and_le_right
  unfold decode_register_instruction
  generalize hg : instr.funct = f
  rw [hg] at h
  interval_cases f <;> decide

theorem decode_regimm_ne_add (instr : Instruction) :
    decode_regimm_instruction instr ≠ some Mnemonic.ADD := by
  unfold decode_regimm_instruction
  split_ifs <;> decide

theorem decode_copz_ne_add (instr : Instruction) :
    decode_copz_instruction instr ≠ some Mnemonic.ADD := by
  unfold decode_copz_instruction
  split_ifs <;> decide

set_option maxHeartbeats 2000000 in
/-- No 32-bit word whatsoever decodes to ADD: the 5-bit `funct` view can
never equal the 6-bit code `0b100000`, so the ADD arm of the register
sub-decoder is dead (likewise ADDU, AND, NOR, OR, SLT, SLTU, SUB, SUBU
and XOR, whose codes also exceed `0x1F`). -/
theorem decode_never_add :
    ∀ w : Nat, (decode_instruction w).map Prod.fst ≠ some Mnemonic.ADD := by
  intro w
  have h1 : w &&& 0xFC000000 ≤ 0xFC000000 := Nat.and_le_right
  have h : Instruction.op ⟨w⟩ ≤ 63 := by
    show (w &&& 0xFC000000) >>> 26 ≤ 63
    omega
  simp only [decode_instruction, Option.map_map]
  have hcomp : (Prod.fst ∘ fun m : Mnemonic => (m, (⟨w⟩ : Instruction))) = id := rfl
  rw [hcomp, Option.map_id]
  generalize hg : Instruction.op ⟨w⟩ = o
  rw [hg] at h
  interval_cases o <;>
    simp [decode_register_ne_add, decode_regimm_ne_add, decode_copz_ne_add]

/-! ## Concrete machines used by the claim theorems -/

/-- A quiescent machine: all registers, memory, Cop0 state and counters
zero. -/
def zero_machine : Machine :=
  { cpu :=
      { registers := fun _ => 0
        pc := 0
        hi := 0
        lo := 0
        next_instruction := (0, 0)
        next_load := (0, 0)
        is_branch_delay := false
        wait := 0 }
    cycles := 0
    cop0 := Cop0.new
    bus := { mem := fun _ => 0, log := [] } }

/-- Memory for the load-delay run: word 5 at `0x100`, and the word
`0x24430000` (`ADDIU r3, r2, 0`) at `0x1004`, little-endian. -/
def ld_mem : Nat → Nat := fun a =>
  if a = 0x100 then 5
  else if a = 0x1006 then 0x43
  else if a = 0x1007 then 0x24
  else 0

/-- About to execute `LW r2, 0(r1)` at `0x1000`, with `r1 = 0x100`,
`r2 = 7` (the old value) and `ADDIU r3, r2, 0` queued at `0x1004`. -/
def ld_machine : Machine :=
  { zero_machine with
    cpu := { zero_machine.cpu with
      registers := fun i => if i = 1 then 0x100 else if i = 2 then 7 else 0
      pc := 0x1004
      next_instruction := (0x8C220000, 0x1000) }
    bus := { mem := ld_mem, log := [] } }

/-- Memory for the register-zero run: word 5 at `0x100`, and the word
`0x24030000` (`ADDIU r3, r0, 0`) at `0x1004`, little-endian. -/
def r0_mem : Nat → Nat := fun a =>
  if a = 0x100 then 5
  else if a = 0x1006 then 0x03
  else if a = 0x1007 then 0x24
  else 0

/-- About to execute `LW r0, 0(r1)` at `0x1000` (destination register 0),
with `r1 = 0x100` and `ADDIU r3, r0, 0` queued at `0x1004`. -/
def r0_machine : Machine :=
  { zero_machine with
    cpu := { zero_machine.cpu with
      registers := fun i => if i = 1 then 0x100 else 0
      pc := 0x1004
      next_instruction := (0x8C200000, 0x1000) }
    bus := { mem := r0_mem, log := [] } }

/-- A machine sitting at `PC = 0x1000` with all registers zero, for the
branch-offset run. -/
def branch_machine : Machine :=
  { zero_machine with cpu := { zero_machine.cpu with pc := 0x1000 } }

/-- `r1 = 0x8000_0000`, `r2 = 0`: operands for `DIVU` divide-by-zero with
a numerator whose sign bit is set. -/
def divu_machine : Machine :=
  { zero_machine with
    cpu := { zero_machine.cpu with
      registers := fun i => if i = 1 then 0x80000000 else 0 } }

/-- Cache-isolated machine (SR bit 16 set) with `r1 = 0x200` (store base)
and `r2 = 0xAABBCCDD` (store value). -/
def iso_machine : Machine :=
  { zero_machine with
    cpu := { zero_machine.cpu with
      registers := fun i => if i = 1 then 0x200 else if i = 2 then 0xAABBCCDD else 0 }
    cop0 := { Cop0.new with sr := 0x00010000 } }

/-- `r1 = 0x7FFF_FFFF`, `r2 = 1`: a signed-overflow operand pair. -/
def ovf_machine : Machine :=
  { zero_machine with
    cpu := { zero_machine.cpu with
      registers := fun i => if i = 1 then 0x7FFFFFFF else if i = 2 then 1 else 0 } }

/-- An R-format field selection: `rs = 1`, `rt = 2`, `rd = 3`. -/
def rtype_instr : Instruction := ⟨0x00221800⟩

/-- An instruction word selecting `rs = 1`, `rt = 2` with a zero
immediate, for handlers that ignore the opcode bits. -/
def rs1rt2_instr : Instruction := ⟨0x00220000⟩

/-! ## Claim theorems -/

/-- Claim C1.  The load handler does deposit a pending `(2, 5)` pair and
leaves `r2 = 7` during its own step, but the step that executes the
instruction at `A + 4` applies the write-back *before* running that
instruction's handler, so `ADDIU r3, r2, 0` reads the freshly loaded 5,
not the previous 7: after the two steps `r3 = 5`, where the claim demands
`r3 = 7`. -/
theorem c1_load_delay_writeback_order :
    ((exec ld_machine).map (fun m => (m.cpu.next_load, m.cpu.registers 2)) =
      some ((2, 5), 7)) ∧
    (((exec ld_machine).bind exec).map (fun m => (m.cpu.registers 2, m.cpu.registers 3)) =
      some (5, 5)) := by
  decide

/-- Claim C2.  For the taken branch `BEQ r0, r0` with immediate `0x2000`
at `PC = 0x1000`, the handler leaves `PC = 0xFFFF8FFC`: the source applies
`sign_extend!` to the *already shifted* immediate, truncating it to
16 bits, where the claim's offset `sign_extend(imm) <<< 2 = 0x8000` would
give `PC = 0x8FFC`.  The last two conjuncts exhibit the two offset
formulas side by side. -/
theorem c2_branch_offset_shift_then_extend :
    ((op_beq branch_machine ⟨0x10002000⟩).map (fun p => (p.1.cpu.pc, p.2.isNone)) =
      some (0xFFFF8FFC, true)) ∧
    sign_extend (0x2000 <<< 2) = 0xFFFF8000 ∧
    (sign_extend 0x2000) <<< 2 = 0x8000 := by
  decide

/-- Claim C3.  On the word `0xFFFFFFFF` the accessor views give
`shamt = 63` (the mask `0x7E0` shifted by 5 selects bits 10..5, not
10..6), `funct = 31` (mask `0x1F`, 5 bits instead of the claimed 6-bit
`0x3F`), and `target = 0x07FFFFFF` (27 bits instead of the claimed
`0x03FFFFFF`); `op`, `rs`, `rt`, `rd` and `immediate` agree with the
claim. -/
theorem c3_instruction_field_masks :
    Instruction.op ⟨0xFFFFFFFF⟩ = 63 ∧
    Instruction.rs ⟨0xFFFFFFFF⟩ = 31 ∧
    Instruction.rt ⟨0xFFFFFFFF⟩ = 31 ∧
    Instruction.rd ⟨0xFFFFFFFF⟩ = 31 ∧
    Instruction.immediate ⟨0xFFFFFFFF⟩ = 0xFFFF ∧
    Instruction.shamt ⟨0xFFFFFFFF⟩ = 63 ∧
    Instruction.funct ⟨0xFFFFFFFF⟩ = 31 ∧
    Instruction.target ⟨0xFFFFFFFF⟩ = 0x07FFFFFF := by
  decide

/-- Claim C4.  The MIPS-I encodings of ADD (`0x20`), NOR (`0x27`) and SLT
(`0x2A`) do not decode to their mnemonics: because `funct` keeps only
5 bits, `0x20` decodes as SLL and `0x27` as SRAV, while `0x2A` hits the
fatal unknown-funct arm (`decode_never_add` above proves no word at all
reaches ADD).  Words whose `op` is outside the defined set do produce the
ILLEGAL sentinel, as the last conjunct shows. -/
theorem c4_decoder_funct_unreachable :
    ((decode_instruction 0x00000020).map Prod.fst = some Mnemonic.SLL) ∧
    ((decode_instruction 0x00000027).map Prod.fst = some Mnemonic.SRAV) ∧
    (decode_instruction 0x0000002A = Option.none) ∧
    ((decode_instruction 0xFC000000).map Prod.fst = some Mnemonic.ILLEGAL) := by
  decide

/-- Claim C5.  A load targeting register 0 (`LW r0, 0(r1)` fetching 5)
deposits the pending pair `(0, 5)`; the next step's write-back stores 5
into entry 0 *without* the write-sink, and the following
`ADDIU r3, r0, 0` reads 5 from register 0 (so `r3 = 5`), where the claim
demands that every read of register 0 return 0. -/
theorem c5_register_zero_writeback_leak :
    ((exec r0_machine).map (fun m => (m.cpu.next_load, m.cpu.registers 0)) =
      some ((0, 5), 0)) ∧
    (((exec r0_machine).bind exec).map (fun m => (m.cpu.registers 0, m.cpu.registers 3)) =
      some (0, 5)) := by
  decide

/-- Claim C6.  `DIVU` with numerator `0x8000_0000` and zero denominator
sets `HI = 0x8000_0000` and `LO = 1` without signalling an exception: the
handler reuses the *signed* divide-by-zero rule (`numerator as i32 >= 0`),
where the claim (and the spec's §4.C.5) demands `LO = 0xFFFF_FFFF` for
every unsigned numerator. -/
theorem c6_divu_divide_by_zero_lo :
    (op_divu divu_machine rs1rt2_instr).map
      (fun p => (p.1.cpu.hi, p.1.cpu.lo, p.2.isNone)) =
    some (0x80000000, 1, true) := by
  decide

/-- Claim C7.  `handle_exception` writes `Cause = code*4` (plus bit 31 in
a delay slot), `EPC = pc` or `pc - 4`, replaces the low 6 bits of SR by
the old low 6 shifted up by 2 (bottom two bits zero) leaving the upper
bits unchanged, and returns the vector picked by TLB-relatedness and the
BEV bit (bit 22) of SR. -/
theorem c7_exception_vectoring (c : Cop0) (exc : Exception) (pc : Nat) (d : Bool)
    (hsr : c.sr < 4294967296) (hpc1 : 4 ≤ pc) (hpc2 : pc < 4294967296) :
    (handle_exception c exc pc d).1.cause = exc.code * 4 + (if d then 2147483648 else 0) ∧
    (handle_exception c exc pc d).1.epc = (if d then pc - 4 else pc) ∧
    (handle_exception c exc pc d).1.sr % 64 = c.sr % 64 * 4 % 64 ∧
    (handle_exception c exc pc d).1.sr / 64 = c.sr / 64 ∧
    (handle_exception c exc pc d).1.sr % 4 = 0 ∧
    (handle_exception c exc pc d).2 =
      (if exc = Exception.TLBModification ∨ exc = Exception.TLBLoad ∨ exc = Exception.TLBStore
       then (if c.sr / 4194304 % 2 = 1 then 0xBFC00100 else 0x80000000)
       else (if c.sr / 4194304 % 2 = 1 then 0xBFC00180 else 0x80000080)) := by
  have hc : exc.code ≤ 12 := by cases exc <;> simp [Exception.code]
  have hsr2 := handle_exception_sr c exc pc d hsr
  refine ⟨?_, ?_, ?_, ?_, ?_, ?_⟩
  · simp only [handle_exception]
    cases d with
    | false =>
      simp only [Bool.false_eq_true, if_false]
      simp only [Nat.shiftLeft_eq]; omega
    | true =>
      simp only [if_true]
      rw [Nat.lor_comm]
      have h31 : (0x80000000 : Nat) = 1 <<< 31 := by decide
      have hlt : exc.code <<< 2 < 2 ^ 31 := by
        simp only [Nat.shiftLeft_eq]; omega
      rw [h31, or_eq_add_shl 1 (exc.code <<< 2) 31 hlt]
      simp only [Nat.shiftLeft_eq]; omega
  · simp only [handle_exception, wsub32]
    cases d with
    | false => simp
    | true => simp only [if_true]; omega
  · omega
  · omega
  · omega
  · simp only [handle_exception, Cop0.is_bev]
    have hb : (c.sr &&& 0xFFFFFFC0 ||| (c.sr &&& 0x3F) <<< 2 &&& 0x3F)
        = (handle_exception c exc pc d).1.sr := by simp only [handle_exception]
    by_cases htlb :
        exc = Exception.TLBModification ∨ exc = Exception.TLBLoad ∨ exc = Exception.TLBStore
    · rw [if_pos htlb, if_pos htlb]
      by_cases hbev : c.sr / 4194304 % 2 = 1
      · rw [if_pos hbev]
        have hx : 0 < (c.sr &&& 0xFFFFFFC0 ||| (c.sr &&& 0x3F) <<< 2 &&& 0x3F) &&& 0x400000 := by
          rw [bit22_pos_iff, hb, hsr2, new_sr_bit22]; omega
        simp [hx, MagicAddress.TLBMissBev]
      · rw [if_neg hbev]
        have hx :
            ¬ (0 < (c.sr &&& 0xFFFFFFC0 ||| (c.sr &&& 0x3F) <<< 2 &&& 0x3F) &&& 0x400000) := by
          rw [bit22_pos_iff, hb, hsr2, new_sr_bit22]; omega
        simp [hx, MagicAddress.TLBMiss]
    · rw [if_neg htlb, if_neg htlb]
      by_cases hbev : c.sr / 4194304 % 2 = 1
      · rw [if_pos hbev]
        have hx : 0 < (c.sr &&& 0xFFFFFFC0 ||| (c.sr &&& 0x3F) <<< 2 &&& 0x3F) &&& 0x400000 := by
          rw [bit22_pos_iff, hb, hsr2, new_sr_bit22]; omega
        simp [hx, MagicAddress.MiscExceptionBev]
      · rw [if_neg hbev]
        have hx :
            ¬ (0 < (c.sr &&& 0xFFFFFFC0 ||| (c.sr &&& 0x3F) <<< 2 &&& 0x3F) &&& 0x400000) := by
          rw [bit22_pos_iff, hb, hsr2, new_sr_bit22]; omega
        simp [hx, MagicAddress.MiscException]

/-- Witness for C7: a Syscall at `0x1000`, not in a delay slot, with the
BEV bit set, vectors to `0xBFC00180`. -/
theorem c7_exception_vectoring_witness :
    (handle_exception { sr := 0x400000, cause := 0, epc := 0 }
      Exception.Syscall 0x1000 false).2 = 0xBFC00180 := by
  have h := c7_exception_vectoring { sr := 0x400000, cause := 0, epc := 0 }
    Exception.Syscall 0x1000 false (by norm_num) (by norm_num) (by norm_num)
  exact h.2.2.2.2.2.trans (by decide)

/-- Claim C8.  For `ADD`, `ADDI` and `SUB`: when the signed sum (resp.
difference) of the operands leaves the i32 range the handler returns the
IntegerOverflow exception and leaves the whole machine — in particular
the destination register — unchanged; otherwise no exception is signalled,
the register file receives the exact two's-complement result at the
destination, and (when the destination is not the register-0 sink) reading
the destination back gives exactly that signed value. -/
theorem c8_signed_overflow_behavior (mb : Machine) (instr : Instruction) :
    (((toI32 (get_reg mb instr.rs) + toI32 (get_reg mb instr.rt) < -2147483648 ∨
        2147483648 ≤ toI32 (get_reg mb instr.rs) + toI32 (get_reg mb instr.rt)) →
      op_add mb instr = some (mb, some Exception.IntegerOverflow)) ∧
     (-2147483648 ≤ toI32 (get_reg mb instr.rs) + toI32 (get_reg mb instr.rt) →
      toI32 (get_reg mb instr.rs) + toI32 (get_reg mb instr.rt) < 2147483648 →
      op_add mb instr =
        some (write_reg mb instr.rd
          (toU32 (toI32 (get_reg mb instr.rs) + toI32 (get_reg mb instr.rt))), none) ∧
      (instr.rd ≠ 0 →
        toI32 (get_reg (write_reg mb instr.rd
            (toU32 (toI32 (get_reg mb instr.rs) + toI32 (get_reg mb instr.rt)))) instr.rd) =
          toI32 (get_reg mb instr.rs) + toI32 (get_reg mb instr.rt)))) ∧
    (((toI32 (get_reg mb instr.rs) + toI32 (sign_extend instr.immediate) < -2147483648 ∨
        2147483648 ≤ toI32 (get_reg mb instr.rs) + toI32 (sign_extend instr.immediate)) →
      op_addi mb instr = some (mb, some Exception.IntegerOverflow)) ∧
     (-2147483648 ≤ toI32 (get_reg mb instr.rs) + toI32 (sign_extend instr.immediate) →
      toI32 (get_reg mb instr.rs) + toI32 (sign_extend instr.immediate) < 2147483648 →
      op_addi mb instr =
        some (write_reg mb instr.rt
          (toU32 (toI32 (get_reg mb instr.rs) + toI32 (sign_extend instr.immediate))), none) ∧
      (instr.rt ≠ 0 →
        toI32 (get_reg (write_reg mb instr.rt
            (toU32 (toI32 (get_reg mb instr.rs) + toI32 (sign_extend instr.immediate))))
          instr.rt) =
          toI32 (get_reg mb instr.rs) + toI32 (sign_extend instr.immediate)))) ∧
    (((toI32 (get_reg mb instr.rs) - toI32 (get_reg mb instr.rt) < -2147483648 ∨
        2147483648 ≤ toI32 (get_reg mb instr.rs) - toI32 (get_reg mb instr.rt)) →
      op_sub mb instr = some (mb, some Exception.IntegerOverflow)) ∧
     (-2147483648 ≤ toI32 (get_reg mb instr.rs) - toI32 (get_reg mb instr.rt) →
      toI32 (get_reg mb instr.rs) - toI32 (get_reg mb instr.rt) < 2147483648 →
      op_sub mb instr =
        some (write_reg mb instr.rd
          (toU32 (toI32 (get_reg mb instr.rs) - toI32 (get_reg mb instr.rt))), none) ∧
      (instr.rd ≠ 0 →
        toI32 (get_reg (write_reg mb instr.rd
            (toU32 (toI32 (get_reg mb instr.rs) - toI32 (get_reg mb instr.rt)))) instr.rd) =
          toI32 (get_reg mb instr.rs) - toI32 (get_reg mb instr.rt)))) := by
  refine ⟨⟨?_, ?_⟩, ⟨?_, ?_⟩, ⟨?_, ?_⟩⟩
  · intro h
    simp only [op_add, checked_add_i32]
    rw [if_neg (by omega)]
  · intro h1 h2
    constructor
    · simp only [op_add, checked_add_i32]
      rw [if_pos ⟨h1, h2⟩]
    · intro hrd
      simp only [get_reg, write_reg, write_reg_file]
      rw [if_neg hrd]
      simp only [if_true, ite_true]
      exact toI32_toU32 _ h1 h2
  · intro h
    simp only [op_addi, checked_add_i32]
    rw [if_neg (by omega)]
  · intro h1 h2
    constructor
    · simp only [op_addi, checked_add_i32]
      rw [if_pos ⟨h1, h2⟩]
    · intro hrt
      simp only [get_reg, write_reg, write_reg_file]
      rw [if_neg hrt]
      simp only [if_true, ite_true]
      exact toI32_toU32 _ h1 h2
  · intro h
    simp only [op_sub, checked_sub_i32]
    rw [if_neg (by omega)]
  · intro h1 h2
    constructor
    · simp only [op_sub, checked_sub_i32]
      rw [if_pos ⟨h1, h2⟩]
    · intro hrd
      simp only [get_reg, write_reg, write_reg_file]
      rw [if_neg hrd]
      simp only [if_true, ite_true]
      exact toI32_toU32 _ h1 h2

/-- Witness for C8: `ADD r3, r1, r2` with `r1 = 0x7FFF_FFFF`, `r2 = 1`
overflows, returns IntegerOverflow and leaves the machine untouched. -/
theorem c8_signed_overflow_behavior_witness :
    op_add ovf_machine rtype_instr = some (ovf_machine, some Exception.IntegerOverflow) := by
  have h := c8_signed_overflow_behavior ovf_machine rtype_instr
  exact h.1.1 (Or.inr (by decide))

/-- Claim C9.  With the cache-isolated bit set (SR = `0x0001_0000`),
`SWL r2, 0(r1)` still performs a bus write — the write log receives the
32-bit write of the merged word `0xDD000000` at `0x200` — because
`op_swl`/`op_swr` call the bus directly instead of the isolation-checking
store helper; `SW` on the same machine is dropped (empty log), as the
claim demands for all five stores. -/
theorem c9_swl_swr_ignore_cache_isolation :
    ((op_swl iso_machine rs1rt2_instr).map (fun p => (p.1.bus.log, p.2.isNone)) =
      some ([(4, 0x200, 0xDD000000)], true)) ∧
    ((op_sw iso_machine rs1rt2_instr).map (fun p => (p.1.bus.log, p.2.isNone)) =
      some ([], true)) ∧
    Cop0.is_cache_isolated iso_machine.cop0 = true := by
  decide

/-- Counterexample for C10: at address 0 all three mirror mappings
succeed, yet `map_device` returns *different* results for the KUSEG and
KSEG0 images — the segment component of the triple differs. -/
theorem c10_mirror_counterexample :
    (map_device 0).isSome ∧ (map_device (0 ^^^ 0x80000000)).isSome ∧
    (map_device (0 ^^^ 0xA0000000)).isSome ∧
    map_device 0 ≠ map_device (0 ^^^ 0x80000000) := by
  decide

/-- Claim C10 (amended).  For every 32-bit address whose mapping succeeds
from all three of KUSEG, KSEG0 and KSEG1, the *device* and *device-local
offset* components of `map_device` coincide for `addr`,
`addr ^^^ 0x8000_0000` and `addr ^^^ 0xA000_0000`; the segment component
necessarily differs between the mirrors. -/
theorem c10_mirror_amended (addr : Nat) (h32 : addr < 4294967296)
    (h1 : (map_device addr).isSome)
    (h2 : (map_device (addr ^^^ 0x80000000)).isSome)
    (h3 : (map_device (addr ^^^ 0xA0000000)).isSome) :
    ∃ d o s1 s2 s3,
      map_device addr = some (s1, d, o) ∧
      map_device (addr ^^^ 0x80000000) = some (s2, d, o) ∧
      map_device (addr ^^^ 0xA0000000) = some (s3, d, o) := by
  have h2_32 : addr ^^^ 0x80000000 < 4294967296 := by
    have h := @Nat.xor_lt_two_pow addr 0x80000000 32 (by omega) (by norm_num)
    omega
  have h3_32 : addr ^^^ 0xA0000000 < 4294967296 := by
    have h := @Nat.xor_lt_two_pow addr 0xA0000000 32 (by omega) (by norm_num)
    omega
  have hm2 : (addr ^^^ 0x80000000) &&& 0x0FFFFFFF = addr &&& 0x0FFFFFFF :=
    xor_and_eq_of_and_eq_zero addr 0x80000000 0x0FFFFFFF (by decide)
  have hm3 : (addr ^^^ 0xA0000000) &&& 0x0FFFFFFF = addr &&& 0x0FFFFFFF :=
    xor_and_eq_of_and_eq_zero addr 0xA0000000 0x0FFFFFFF (by decide)
  have e29a : (0x80000000 : Nat) >>> 29 = 4 := by decide
  have e29b : (0xA0000000 : Nat) >>> 29 = 5 := by decide
  have hs2 : (addr ^^^ 0x80000000) >>> 29 = (addr >>> 29) ^^^ 4 := by
    rw [xor_shr, e29a]
  have hs3 : (addr ^^^ 0xA0000000) >>> 29 = (addr >>> 29) ^^^ 5 := by
    rw [xor_shr, e29b]
  have hmlt : addr &&& 0x0FFFFFFF < 268435456 := by
    have h := @Nat.and_lt_two_pow addr 0x0FFFFFFF 28 (by norm_num)
    omega
  have hcase : addr >>> 29 = 0 ∨ addr >>> 29 = 1 ∨ addr >>> 29 = 2 ∨ addr >>> 29 = 3 ∨
      addr >>> 29 = 4 ∨ addr >>> 29 = 5 ∨ addr >>> 29 = 6 ∨ addr >>> 29 = 7 := by omega
  rcases hcase with hk | hk | hk | hk | hk | hk | hk | hk
  · -- KUSEG low: mirrors are KSEG0 and KSEG1
    rw [hk] at hs2 hs3
    have hv2 : (addr ^^^ 0x80000000) >>> 29 = 4 := by rw [hs2]; decide
    have hv3 : (addr ^^^ 0xA0000000) >>> 29 = 5 := by rw [hs3]; decide
    have sx := segment_of_kuseg addr (by omega)
    have sy := segment_of_kseg0 (addr ^^^ 0x80000000) (by omega) (by omega)
    have sz := segment_of_kseg1 (addr ^^^ 0xA0000000) (by omega) (by omega)
    obtain ⟨d, o, e1, e2, e3⟩ :=
      map_mirror_core addr (addr ^^^ 0x80000000) (addr ^^^ 0xA0000000)
        (by rw [sx]; simp) (by rw [sy]; simp) (by rw [sz]; simp) hm2 hm3 h1 h2 h3
    exact ⟨d, o, _, _, _, e1, e2, e3⟩
  · -- KUSEG high: mirrors are KSEG1 and KSEG0
    rw [hk] at hs2 hs3
    have hv2 : (addr ^^^ 0x80000000) >>> 29 = 5 := by rw [hs2]; decide
    have hv3 : (addr ^^^ 0xA0000000) >>> 29 = 4 := by rw [hs3]; decide
    have sx := segment_of_kuseg addr (by omega)
    have sy := segment_of_kseg1 (addr ^^^ 0x80000000) (by omega) (by omega)
    have sz := segment_of_kseg0 (addr ^^^ 0xA0000000) (by omega) (by omega)
    obtain ⟨d, o, e1, e2, e3⟩ :=
      map_mirror_core addr (addr ^^^ 0x80000000) (addr ^^^ 0xA0000000)
        (by rw [sx]; simp) (by rw [sy]; simp) (by rw [sz]; simp) hm2 hm3 h1 h2 h3
    exact ⟨d, o, _, _, _, e1, e2, e3⟩
  · -- addr in 0x40000000..0x5FFFFFFF: XOR 0x80000000 lands in low KSEG2,
    -- which always faults
    rw [hk] at hs2
    have hv2 : (addr ^^^ 0x80000000) >>> 29 = 6 := by rw [hs2]; decide
    have e := map_device_kseg2_none (addr ^^^ 0x80000000) (by omega) (by omega)
    rw [e] at h2
    simp at h2
  · -- addr in 0x60000000..0x7FFFFFFF: XOR 0xA0000000 lands in low KSEG2
    rw [hk] at hs3
    have hv3 : (addr ^^^ 0xA0000000) >>> 29 = 6 := by rw [hs3]; decide
    have e := map_device_kseg2_none (addr ^^^ 0xA0000000) (by omega) (by omega)
    rw [e] at h3
    simp at h3
  · -- KSEG0: mirrors are the two KUSEG images
    rw [hk] at hs2 hs3
    have hv2 : (addr ^^^ 0x80000000) >>> 29 = 0 := by rw [hs2]; decide
    have hv3 : (addr ^^^ 0xA0000000) >>> 29 = 1 := by rw [hs3]; decide
    have sx := segment_of_kseg0 addr (by omega) (by omega)
    have sy := segment_of_kuseg (addr ^^^ 0x80000000) (by omega)
    have sz := segment_of_kuseg (addr ^^^ 0xA0000000) (by omega)
    obtain ⟨d, o, e1, e2, e3⟩ :=
      map_mirror_core addr (addr ^^^ 0x80000000) (addr ^^^ 0xA0000000)
        (by rw [sx]; simp) (by rw [sy]; simp) (by rw [sz]; simp) hm2 hm3 h1 h2 h3
    exact ⟨d, o, _, _, _, e1, e2, e3⟩
  · -- KSEG1: mirrors are the two KUSEG images
    rw [hk] at hs2 hs3
    have hv2 : (addr ^^^ 0x80000000) >>> 29 = 1 := by rw [hs2]; decide
    have hv3 : (addr ^^^ 0xA0000000) >>> 29 = 0 := by rw [hs3]; decide
    have sx := segment_of_kseg1 addr (by omega) (by omega)
    have sy := segment_of_kuseg (addr ^^^ 0x80000000) (by omega)
    have sz := segment_of_kuseg (addr ^^^ 0xA0000000) (by omega)
    obtain ⟨d, o, e1, e2, e3⟩ :=
      map_mirror_core addr (addr ^^^ 0x80000000) (addr ^^^ 0xA0000000)
        (by rw [sx]; simp) (by rw [sy]; simp) (by rw [sz]; simp) hm2 hm3 h1 h2 h3
    exact ⟨d, o, _, _, _, e1, e2, e3⟩
  · -- low KSEG2 always faults
    have e := map_device_kseg2_none addr (by omega) (by omega)
    rw [e] at h1
    simp at h1
  · -- high KSEG2: success pins addr to the cache-control window, whose
    -- KUSEG mirror has no device
    have hb := kseg2_some_bounds addr (by omega) h1
    have hmod : addr &&& 0x0FFFFFFF = addr % 268435456 := by
      have h := and_mask_mod addr 28
      norm_num at h
      exact h
    rw [hk] at hs2
    have hv2 : (addr ^^^ 0x80000000) >>> 29 = 3 := by rw [hs2]; decide
    have e := map_device_not_kseg2 (addr ^^^ 0x80000000)
      (by rw [segment_of_kuseg (addr ^^^ 0x80000000) (by omega)]; simp)
    rw [hm2] at e
    have efind := find_none_high (addr &&& 0x0FFFFFFF) (by omega) (by omega)
    have e2 : map_device (addr ^^^ 0x80000000) = none := by rw [e, efind]
    rw [e2] at h2
    simp at h2

/-- Witness for C10: the expansion-1 base `0x1F00_0000` and its two
mirrors all resolve to Expansion1 at offset 0. -/
theorem c10_mirror_amended_witness :
    ∃ d o s1 s2 s3,
      map_device 0x1F000000 = some (s1, d, o) ∧
      map_device (0x1F000000 ^^^ 0x80000000) = some (s2, d, o) ∧
      map_device (0x1F000000 ^^^ 0xA0000000) = some (s3, d, o) :=
  c10_mirror_amended 0x1F000000 (by norm_num) (by decide) (by decide) (by decide)

end PsRs
